import Mathlib

/-!
Verification of the jwt-auth service core against its natural-language
specification.  The definitions below are a shallow embedding of the
TypeScript sources: association lists stand for the Redis key-value store
and the relational tables, explicit state passing stands for awaited store
calls, and event traces record the externally visible effects of a request
(emails, token issuance, responses).  Repository modules whose
implementation is absent from the provided sources (the Redis CacheService,
the RFC 6238 TOTP engine) are modelled from the specification; third-party
libraries invoked by the present sources (express-jwt with jsonwebtoken,
jose, express-slow-down) are modelled from their documented contracts; each
such definition says so in its doc comment.
-/

namespace JwtAuthService

/-- Lookup in an association list keyed by the first component. -/
def findVal (l : List (String × α)) (k : String) : Option α :=
  (l.find? (fun p => p.fst == k)).map Prod.snd

/-- Remove every binding for a key from an association list. -/
def eraseKey (l : List (String × α)) (k : String) : List (String × α) :=
  l.filter (fun p => p.fst != k)

/-- State of the shared Redis key-value store used by CacheService. -/
structure Cache where
  /-- session ledger: sessionID maps to userID (keys named sess:...). -/
  sessions : List (String × String)
  /-- OTP step-up sessions: jti maps to userID. -/
  otpSessions : List (String × String)
  /-- per-subject failed OTP attempt counters. -/
  otpAttempts : List (String × Nat)
  /-- subjects whose one-time security-alert email lock is set. -/
  alertLock : List String
  /-- consumed one-time codes: (userID, code) pairs. -/
  otpBlacklist : List (String × String)
  deriving Repr, DecidableEq

/-- The empty cache. -/
def Cache.empty : Cache := ⟨[], [], [], [], []⟩

/-- Modelled from the spec: CacheService.setSession is the Session Store
put(sessionID, subjectID), an idempotent upsert keyed by the sessionID
(src/modules/cache/service.ts is not among the provided sources). -/
def setSession (c : Cache) (sessionID userID : String) : Cache :=
  { c with sessions := (sessionID, userID) :: eraseKey c.sessions sessionID }

/-- Modelled from the spec: CacheService.getUserIDFromSession is the Session
Store get(sessionID), returning the subject or absent. -/
def getUserIDFromSession (c : Cache) (sessionID : String) : Option String :=
  findVal c.sessions sessionID

/-- Modelled from the spec: CacheService.deleteSession removes one sessionID
from the session ledger. -/
def deleteSession (c : Cache) (sessionID : String) : Cache :=
  { c with sessions := eraseKey c.sessions sessionID }

/-- Modelled from the spec: CacheService.getOTPAttempts reads the per-subject
failed-attempt counter (absent when the TTL window has expired). -/
def getOTPAttempts (c : Cache) (userID : String) : Option Nat :=
  findVal c.otpAttempts userID

/-- Modelled from the spec: CacheService.setOTPAttempts increments the
per-subject failed-attempt counter (an absent counter becomes 1). -/
def setOTPAttempts (c : Cache) (userID : String) : Cache :=
  let n := (findVal c.otpAttempts userID).getD 0
  { c with otpAttempts := (userID, n + 1) :: eraseKey c.otpAttempts userID }

/-- Modelled from the spec: CacheService.getSecurityAlertEmailLock reads the
one-time notification lock for a subject. -/
def getSecurityAlertEmailLock (c : Cache) (userID : String) : Bool :=
  c.alertLock.contains userID

/-- Modelled from the spec: CacheService.setSecurityAlertEmailLock sets the
one-time notification lock for a subject. -/
def setSecurityAlertEmailLock (c : Cache) (userID : String) : Cache :=
  { c with alertLock := userID :: c.alertLock }

/-- Modelled from the spec: CacheService.getBlacklistedOTP tells whether the
(subject, code) pair was already consumed in its time-step. -/
def getBlacklistedOTP (c : Cache) (userID code : String) : Bool :=
  c.otpBlacklist.contains (userID, code)

/-- Modelled from the spec: CacheService.blacklistOTP records a consumed
(subject, code) pair for the remainder of its time-step. -/
def blacklistOTP (c : Cache) (userID code : String) : Cache :=
  { c with otpBlacklist := (userID, code) :: c.otpBlacklist }

/-- Modelled from the spec: CacheService.setOTPSession records a step-up
token jti for a subject. -/
def setOTPSession (c : Cache) (jti userID : String) : Cache :=
  { c with otpSessions := (jti, userID) :: eraseKey c.otpSessions jti }

/-- Modelled from the spec: CacheService.getOTPSession resolves a step-up
token jti to the subject it was issued for. -/
def getOTPSession (c : Cache) (jti : String) : Option String :=
  findVal c.otpSessions jti

/-- A row of the relational User table (prisma model User). -/
structure UserRow where
  userPK : Nat
  userID : String
  username : String
  email : String
  phoneNumber : String
  password : String
  totpSecret : String
  isActive : Bool
  deriving Repr, DecidableEq

/-- A row of the relational Session table (prisma model Session); the table
has unique indexes on sessionID and on userPK. -/
structure SessionRow where
  sessionPK : Nat
  sessionID : String
  userPK : Nat
  deriving Repr, DecidableEq

/-- The relational database state used by the services. -/
structure Db where
  users : List UserRow
  sessions : List SessionRow
  deriving Repr, DecidableEq

/-- SessionService.getSession: point read of a session row by sessionID. -/
def getSession (db : Db) (sessionID : String) : Option SessionRow :=
  db.sessions.find? (fun r => r.sessionID == sessionID)

/-- UserService.getUserComplete / getUser: point read of a user by userID. -/
def getUserByID (db : Db) (userID : String) : Option UserRow :=
  db.users.find? (fun u => u.userID == userID)

/-- SessionService.createOrUpdateSession: prisma upsert keyed by userPK.  The
update branch rewrites the existing row of the subject with a fresh random
sessionID; the create branch inserts a new row with a fresh sessionID and
primary key.  Afterwards CacheService.setSession stores the new sessionID in
the Redis ledger.  Fresh identifiers are passed as arguments in place of
randomUUID. -/
def createOrUpdateSession (db : Db) (c : Cache) (userPK : Nat) (userID : String)
    (freshSessionID : String) (freshSessionPK : Nat) : SessionRow × Db × Cache :=
  match db.sessions.find? (fun r => r.userPK == userPK) with
  | some row =>
      let row2 : SessionRow := { row with sessionID := freshSessionID }
      let db2 : Db :=
        { db with sessions :=
            db.sessions.map (fun r => if r.userPK == userPK then { r with sessionID := freshSessionID } else r) }
      (row2, db2, setSession c freshSessionID userID)
  | none =>
      let row : SessionRow :=
        { sessionPK := freshSessionPK, sessionID := freshSessionID, userPK := userPK }
      (row, { db with sessions := row :: db.sessions }, setSession c freshSessionID userID)

/-- The session JWT payload attached to the request by verifySessionJwt
(interface JWTPayload of extensions.d.ts). -/
structure AuthPayload where
  aud : String
  exp : Nat
  iat : Nat
  iss : String
  jti : String
  nbf : Nat
  sub : String
  deriving Repr, DecidableEq

/-- Outcome of the hasSession middleware: an AppError passed to next, or
the request proceeding with the resolved session context. -/
inductive HSResult where
  | err (msg : String) (status : Nat)
  | ok (userID sessionID : String)
  deriving Repr, DecidableEq

/-- The hasSession middleware (src/modules/middleware/has-session.ts), after
verifySessionJwt has succeeded and attached the verified payload.  The input
auth is none when no payload was attached; a falsy jti rejects; then the
Redis session ledger is consulted, the relational session row is resolved
(deleting the stale cache entry when the row is gone), and the user must
exist and be active. -/
def hasSession (db : Db) (c : Cache) (auth : Option AuthPayload) :
    HSResult × Db × Cache :=
  match auth with
  | none => (.err "Failed to verify the integrity of the token." 401, db, c)
  | some payload =>
    let sessionID := payload.jti
    if sessionID = "" then
      (.err "Failed to verify the integrity of the token." 401, db, c)
    else
      match getUserIDFromSession c sessionID with
      | none => (.err "Failed to verify the integrity of the token." 401, db, c)
      | some userID =>
        match getSession db sessionID with
        | none =>
          (.err "Failed to verify the integrity of the token." 401, db,
            deleteSession c sessionID)
        | some _session =>
          match getUserByID db userID with
          | none => (.err "User belonging to this session does not exist." 400, db, c)
          | some user =>
            if user.isActive = false then
              (.err "User is not active. Please contact the admin." 403, db, c)
            else
              (.ok userID sessionID, db, c)

/-- Result of the login handler: an AppError passed to next, or the
sessionID of the created or refreshed session. -/
inductive LoginResult where
  | err (msg : String) (status : Nat)
  | ok (sessionID : String)
  deriving Repr, DecidableEq

/-- Modelled from the spec: verifyPassword of util/passwords (not among the
provided sources) is the Credential Verifier verify(hash, candidate), a
constant-time check of the candidate against the stored credential; modelled
as equality with the stored value. -/
def verifyPassword (stored candidate : String) : Bool := stored == candidate

/-- UserService.getUserByCredentials(username, username, username): resolves
the unique user whose username, email or phone number equals the supplied
credential string. -/
def getUserByCredentials (db : Db) (cred : String) : Option UserRow :=
  db.users.find? (fun u => u.username == cred || u.email == cred || u.phoneNumber == cred)

/-- AuthController.login: resolves the user by credential, verifies the
password (one combined 401 for unknown user or wrong password), requires the
user to be active, then upserts the session row and the Redis session ledger
entry through SessionService.createOrUpdateSession.  No failure branch
touches any attempt counter. -/
def login (db : Db) (c : Cache) (username password : String)
    (freshSessionID : String) (freshSessionPK : Nat) : LoginResult × Db × Cache :=
  match getUserByCredentials db username with
  | none => (.err "Invalid username and/or password!" 401, db, c)
  | some user =>
    if verifyPassword user.password password = false then
      (.err "Invalid username and/or password!" 401, db, c)
    else if user.isActive = false then
      (.err "User is not active. Please contact the admin." 403, db, c)
    else
      let r := createOrUpdateSession db c user.userPK user.userID freshSessionID freshSessionPK
      (.ok r.1.sessionID, r.2.1, r.2.2)

/-- Claim C1: for every session identifier absent from the session store, a
request carrying a cryptographically valid session token with that jti is
rejected by hasSession as an authentication failure: the store lookup alone
refuses the session, regardless of signature validity. -/
theorem hasSession_rejects_absent_store_entry (db : Db) (c : Cache)
    (payload : AuthPayload) (hjti : payload.jti ≠ "")
    (habsent : getUserIDFromSession c payload.jti = none) :
    (hasSession db c (some payload)).1 =
      .err "Failed to verify the integrity of the token." 401 := by
  simp [hasSession, hjti, habsent]

/-- Witness for C1 at a concrete revoked session: the ledger binds only s2,
so a valid token carrying jti s1 is refused with a 401. -/
theorem hasSession_rejects_absent_store_entry_witness :
    (hasSession ⟨[], []⟩ { Cache.empty with sessions := [("s2", "alice")] }
        (some ⟨"aud", 10, 0, "iss", "s1", 0, "alice"⟩)).1 =
      .err "Failed to verify the integrity of the token." 401 :=
  hasSession_rejects_absent_store_entry ⟨[], []⟩
    { Cache.empty with sessions := [("s2", "alice")] }
    ⟨"aud", 10, 0, "iss", "s1", 0, "alice"⟩ (by decide) (by decide)

/-- Reading a key just written to the ledger returns the written subject. -/
theorem getUserIDFromSession_setSession_same (c : Cache) (s uid : String) :
    getUserIDFromSession (setSession c s uid) s = some uid := by
  simp [getUserIDFromSession, setSession, findVal]

/-- Erasing one key does not disturb searches for a different key. -/
theorem find?_eraseKey_ne {α : Type} (l : List (String × α)) (k k2 : String)
    (h : k ≠ k2) :
    (eraseKey l k2).find? (fun p => p.fst == k) = l.find? (fun p => p.fst == k) := by
  induction l with
  | nil => rfl
  | cons a l ih =>
    rw [eraseKey] at ih ⊢
    rw [List.filter_cons]
    by_cases ha : a.fst = k2
    · have h1 : (a.fst != k2) = false := by simp [ha]
      have h2 : ¬ ((fun p : String × α => p.fst == k) a = true) := by
        simp [ha]
        exact fun hc => h hc.symm
      rw [h1]
      simp only [Bool.false_eq_true, if_false]
      rw [ih]
      exact (List.find?_cons_of_neg (p := fun p => p.fst == k) l h2).symm
    · have h1 : (a.fst != k2) = true := by simp [ha]
      rw [h1, if_pos rfl]
      by_cases hk : a.fst = k
      · rw [List.find?_cons_of_pos _ (by simp [hk]), List.find?_cons_of_pos _ (by simp [hk])]
      · rw [List.find?_cons_of_neg _ (by simp [hk]), List.find?_cons_of_neg _ (by simp [hk]), ih]

/-- Erasing one key leaves lookups of a different key unchanged. -/
theorem findVal_eraseKey_ne {α : Type} (l : List (String × α)) (k k2 : String)
    (h : k ≠ k2) : findVal (eraseKey l k2) k = findVal l k := by
  rw [findVal, findVal, find?_eraseKey_ne l k k2 h]

/-- Writing one ledger key leaves lookups of a different key unchanged. -/
theorem getUserIDFromSession_setSession_ne (c : Cache) (s s2 uid : String)
    (h : s ≠ s2) :
    getUserIDFromSession (setSession c s2 uid) s = getUserIDFromSession c s := by
  have hb : ((s2, uid).fst == s) = false := by
    simp
    exact fun hc => h hc.symm
  rw [getUserIDFromSession, setSession, getUserIDFromSession]
  show findVal ((s2, uid) :: eraseKey c.sessions s2) s = findVal c.sessions s
  rw [findVal, List.find?_cons_of_neg _ (by simp_all), ← findVal, findVal_eraseKey_ne c.sessions s s2 h]

/-- A concrete active user for evaluating the handlers. -/
def aliceRow : UserRow :=
  { userPK := 1, userID := "alice-id", username := "alice", email := "alice@example.com",
    phoneNumber := "+100", password := "pw", totpSecret := "secret", isActive := true }

/-- Claim C3 (code evaluated at the failing input): a wrong password at login
returns the 401 credential error but leaves the lockout attempt counter of
the subject untouched, and indeed leaves the whole key-value store unchanged,
so a failed password verification does not increment any lockout counter. -/
theorem login_wrong_password_no_increment :
    (login ⟨[aliceRow], []⟩ Cache.empty "alice" "wrongpw" "s1" 2).1 =
        .err "Invalid username and/or password!" 401 ∧
      (login ⟨[aliceRow], []⟩ Cache.empty "alice" "wrongpw" "s1" 2).2.2 = Cache.empty := by
  exact ⟨rfl, rfl⟩

/-- Claim C2 counterexample: subject alice logs in twice, first with fresh
sessionID s1, then with fresh sessionID s2.  The claim states that a get of
the first sessionID from the session store then returns absent; on the code,
the Redis session ledger still maps s1 to the subject, because
createOrUpdateSession only writes the new entry and never deletes the old
one. -/
theorem second_login_store_retains_first_entry :
    getUserIDFromSession
      (login (login ⟨[aliceRow], []⟩ Cache.empty "alice" "pw" "s1" 2).2.1
             (login ⟨[aliceRow], []⟩ Cache.empty "alice" "pw" "s1" 2).2.2
             "alice" "pw" "s2" 3).2.2 "s1" = some "alice-id" := by
  rfl

/-- The upsert leaves the User table untouched. -/
theorem createOrUpdateSession_users (db : Db) (c : Cache) (pk : Nat)
    (uid s : String) (fp : Nat) :
    ((createOrUpdateSession db c pk uid s fp).2.1).users = db.users := by
  unfold createOrUpdateSession
  split <;> rfl

/-- The upsert always writes exactly the fresh sessionID into the ledger. -/
theorem createOrUpdateSession_cache (db : Db) (c : Cache) (pk : Nat)
    (uid s : String) (fp : Nat) :
    (createOrUpdateSession db c pk uid s fp).2.2 = setSession c s uid := by
  unfold createOrUpdateSession
  split <;> rfl

/-- Every session row after an upsert either belongs to the upserted subject
and carries the fresh sessionID, or belongs to another subject and was
already present. -/
theorem createOrUpdateSession_mem (db : Db) (c : Cache) (pk : Nat)
    (uid s : String) (fp : Nat) (r : SessionRow)
    (hr : r ∈ ((createOrUpdateSession db c pk uid s fp).2.1).sessions) :
    (r.userPK = pk ∧ r.sessionID = s) ∨ (r.userPK ≠ pk ∧ r ∈ db.sessions) := by
  unfold createOrUpdateSession at hr
  split at hr
  case h_1 row heq =>
    rcases List.mem_map.mp hr with ⟨x, hx, hfx⟩
    by_cases hxpk : x.userPK = pk
    · left
      rw [if_pos (by simp [hxpk])] at hfx
      rw [← hfx]
      exact ⟨hxpk, rfl⟩
    · right
      rw [if_neg (by simp [hxpk])] at hfx
      rw [← hfx]
      exact ⟨hxpk, hx⟩
  case h_2 heq =>
    rcases List.mem_cons.mp hr with h | h
    · left
      rw [h]
      exact ⟨rfl, rfl⟩
    · right
      refine ⟨?_, h⟩
      have := List.find?_eq_none.mp heq r h
      simpa using this

/-- An upsert preserves the per-subject uniqueness of session rows. -/
theorem createOrUpdateSession_count (db : Db) (c : Cache) (pk : Nat)
    (uid s : String) (fp : Nat) (q : Nat)
    (hq : db.sessions.countP (fun r => r.userPK == q) ≤ 1) :
    ((createOrUpdateSession db c pk uid s fp).2.1).sessions.countP
      (fun r => r.userPK == q) ≤ 1 := by
  unfold createOrUpdateSession
  split
  case h_1 row heq =>
    show (db.sessions.map _).countP _ ≤ 1
    rw [List.countP_map]
    have hcong : ∀ x ∈ db.sessions,
        (((fun r : SessionRow => r.userPK == q) ∘
          (fun r : SessionRow => if r.userPK == pk then { r with sessionID := s } else r)) x = true ↔
        (fun r : SessionRow => r.userPK == q) x = true) := by
      intro x _
      by_cases hx : x.userPK = pk <;> simp [hx]
    rw [List.countP_congr hcong]
    exact hq
  case h_2 heq =>
    show List.countP _ (_ :: db.sessions) ≤ 1
    rw [List.countP_cons]
    by_cases hqpk : pk = q
    · have hzero : db.sessions.countP (fun r => r.userPK == q) = 0 := by
        rw [List.countP_eq_zero]
        intro x hx
        have := List.find?_eq_none.mp heq x hx
        simpa [hqpk] using this
      simp [hzero, hqpk]
    · have hfalse : (({ sessionPK := fp, sessionID := s, userPK := pk } : SessionRow).userPK == q) = false := by
        simp [hqpk]
      simp [hfalse]
      exact hq

/-- Under found user, correct password and active account, login reduces to
the session upsert. -/
theorem login_ok_eq (db : Db) (c : Cache) (uname pwd s : String) (fp : Nat)
    (user : UserRow) (hfind : getUserByCredentials db uname = some user)
    (hpwd : verifyPassword user.password pwd = true)
    (hact : user.isActive = true) :
    login db c uname pwd s fp =
      (.ok (createOrUpdateSession db c user.userPK user.userID s fp).1.sessionID,
       (createOrUpdateSession db c user.userPK user.userID s fp).2.1,
       (createOrUpdateSession db c user.userPK user.userID s fp).2.2) := by
  unfold login
  rw [hfind]
  simp [hpwd, hact]

/-- Claim C2 as amended: after a second login by the same subject, the
relational Session table no longer contains the first sessionID and keeps at
most one row per subject, and the Redis ledger maps the second sessionID to
the subject; the ledger entry of the first sessionID, however, is retained
(still mapping to the subject) until TTL expiry or lazy deletion, rather
than being removed by the second login itself. -/
theorem login_twice_supersedes (db : Db) (c : Cache) (user : UserRow)
    (uname pwd s1 s2 : String) (pk1 pk2 : Nat)
    (hfind : getUserByCredentials db uname = some user)
    (hpwd : verifyPassword user.password pwd = true)
    (hact : user.isActive = true)
    (hs12 : s1 ≠ s2)
    (hfresh : ∀ r ∈ db.sessions, r.sessionID ≠ s1) :
    getSession (login (login db c uname pwd s1 pk1).2.1 (login db c uname pwd s1 pk1).2.2
        uname pwd s2 pk2).2.1 s1 = none ∧
    getUserIDFromSession (login (login db c uname pwd s1 pk1).2.1
        (login db c uname pwd s1 pk1).2.2 uname pwd s2 pk2).2.2 s2 = some user.userID ∧
    getUserIDFromSession (login (login db c uname pwd s1 pk1).2.1
        (login db c uname pwd s1 pk1).2.2 uname pwd s2 pk2).2.2 s1 = some user.userID ∧
    (∀ q : Nat, db.sessions.countP (fun r => r.userPK == q) ≤ 1 →
      ((login (login db c uname pwd s1 pk1).2.1 (login db c uname pwd s1 pk1).2.2
          uname pwd s2 pk2).2.1).sessions.countP (fun r => r.userPK == q) ≤ 1) := by
  have h1 := login_ok_eq db c uname pwd s1 pk1 user hfind hpwd hact
  have husers : ((createOrUpdateSession db c user.userPK user.userID s1 pk1).2.1).users = db.users :=
    createOrUpdateSession_users db c user.userPK user.userID s1 pk1
  have hfind2 : getUserByCredentials (login db c uname pwd s1 pk1).2.1 uname = some user := by
    rw [h1]
    show getUserByCredentials (createOrUpdateSession db c user.userPK user.userID s1 pk1).2.1 uname = some user
    rw [getUserByCredentials, husers]
    exact hfind
  have h2 := login_ok_eq (login db c uname pwd s1 pk1).2.1 (login db c uname pwd s1 pk1).2.2
    uname pwd s2 pk2 user hfind2 hpwd hact
  refine ⟨?_, ?_, ?_, ?_⟩
  · rw [h2]
    show getSession (createOrUpdateSession (login db c uname pwd s1 pk1).2.1 _ _ _ _ _).2.1 s1 = none
    rw [getSession, List.find?_eq_none]
    intro r hr
    rcases createOrUpdateSession_mem _ _ _ _ _ _ r hr with ⟨_, hsid⟩ | ⟨hpk, hmem⟩
    · simp [hsid]
      exact fun hc => hs12 hc.symm
    · rw [h1] at hmem
      rcases createOrUpdateSession_mem _ _ _ _ _ _ r hmem with ⟨hpk2, _⟩ | ⟨_, hmem2⟩
      · exact absurd hpk2 hpk
      · simp
        exact hfresh r hmem2
  · rw [h2, createOrUpdateSession_cache]
    exact getUserIDFromSession_setSession_same _ s2 user.userID
  · rw [h2, createOrUpdateSession_cache, getUserIDFromSession_setSession_ne _ s1 s2 user.userID hs12]
    rw [h1]
    show getUserIDFromSession (createOrUpdateSession db c user.userPK user.userID s1 pk1).2.2 s1 = some user.userID
    rw [createOrUpdateSession_cache]
    exact getUserIDFromSession_setSession_same c s1 user.userID
  · intro q hq
    rw [h2]
    refine createOrUpdateSession_count _ _ _ _ _ _ q ?_
    rw [h1]
    exact createOrUpdateSession_count db c user.userPK user.userID s1 pk1 q hq

/-- Witness for the amended C2 at the concrete two-login scenario of the
specification. -/
theorem login_twice_supersedes_witness :
    getSession (login (login ⟨[aliceRow], []⟩ Cache.empty "alice" "pw" "s1" 2).2.1
        (login ⟨[aliceRow], []⟩ Cache.empty "alice" "pw" "s1" 2).2.2
        "alice" "pw" "s2" 3).2.1 "s1" = none ∧
    getUserIDFromSession (login (login ⟨[aliceRow], []⟩ Cache.empty "alice" "pw" "s1" 2).2.1
        (login ⟨[aliceRow], []⟩ Cache.empty "alice" "pw" "s1" 2).2.2
        "alice" "pw" "s2" 3).2.2 "s2" = some "alice-id" := by
  have h := login_twice_supersedes ⟨[aliceRow], []⟩ Cache.empty aliceRow
    "alice" "pw" "s1" "s2" 2 3 (by decide) (by decide) (by decide) (by decide)
    (by intro r hr; simp at hr)
  exact ⟨h.1, h.2.1⟩

/-- Modelled from the spec: the RFC 6238 engine (src/core/rfc6238.ts is not
among the provided sources) derives a deterministic code from the secret and
the 30-second time-step counter. -/
def totpCode (secret : String) (step : Nat) : String :=
  secret ++ "#" ++ toString step

/-- Modelled from the spec: validateDefaultTOTP recomputes the codes of the
current and adjacent time-steps (clock-skew tolerance) and compares the
candidate in constant time, returning a boolean and never throwing. -/
def validateDefaultTOTP (step : Nat) (candidate secret : String) : Bool :=
  candidate == totpCode secret step ||
  candidate == totpCode secret (step - 1) ||
  candidate == totpCode secret (step + 1)

/-- Externally visible effects of one verifyOTP invocation, in order. -/
inductive OtpEv where
  /-- the one-time security alert email was dispatched. -/
  | alertEmailSent
  /-- CacheService.setOTPAttempts incremented the lockout counter. -/
  | attemptIncremented
  /-- validateDefaultTOTP was invoked on the presented code. -/
  | validatorInvoked
  /-- CacheService.blacklistOTP recorded the consumed code. -/
  | otpBlacklisted
  /-- the signed step-up token was produced. -/
  | tokenIssued
  /-- CacheService.setOTPSession stored the step-up jti. -/
  | otpSessionStored
  /-- the HTTP response (success or error) was released. -/
  | responded
  deriving Repr, DecidableEq

/-- Outcome of verifyOTP: an AppError passed to next, or the jti of the
issued step-up token. -/
inductive OtpResult where
  | err (msg : String) (status : Nat)
  | ok (jti : String)
  deriving Repr, DecidableEq

/-- Result, effect trace and post-state of one verifyOTP invocation. -/
structure OtpOut where
  result : OtpResult
  events : List OtpEv
  cache : Cache
  deriving Repr, DecidableEq

/-- AuthController.verifyOTP.  The basic-auth username is the userID and the
password is the presented one-time code.  The branches follow the source in
order: missing or malformed authorization, unknown user, lockout gate at
exactly 3 attempts (with the one-time security alert email guarded by the
alert lock), replay gate against the blacklist (incrementing the counter),
code validation (incrementing the counter on mismatch), then blacklisting
the consumed code, issuing the step-up token and storing its jti.  The fresh
jti stands for nanoid(). -/
def verifyOTP (db : Db) (c : Cache) (step : Nat) (auth : Option (String × String))
    (freshJti : String) : OtpOut :=
  match auth with
  | none =>
    { result := .err "Missing authorization in request!" 401,
      events := [.responded], cache := c }
  | some (username, password) =>
    if username = "" ∨ password = "" then
      { result := .err "Invalid authentication scheme!" 401,
        events := [.responded], cache := c }
    else
      match getUserByID db username with
      | none =>
        { result := .err "User with that ID is not found." 404,
          events := [.responded], cache := c }
      | some user =>
        if getOTPAttempts c user.userID = some 3 then
          if getSecurityAlertEmailLock c user.userID then
            { result := .err "You have exceeded the number of times allowed for a secured session. Please try again in the next day." 429,
              events := [.responded], cache := c }
          else
            { result := .err "You have exceeded the number of times allowed for a secured session. Please try again in the next day." 429,
              events := [.alertEmailSent, .responded],
              cache := setSecurityAlertEmailLock c user.userID }
        else if getBlacklistedOTP c user.userID password then
          { result := .err "This OTP has expired. Please request it again in 30 seconds!" 410,
            events := [.attemptIncremented, .responded],
            cache := setOTPAttempts c user.userID }
        else if validateDefaultTOTP step password user.totpSecret = false then
          { result := .err "Invalid authentication, wrong OTP code." 401,
            events := [.validatorInvoked, .attemptIncremented, .responded],
            cache := setOTPAttempts c user.userID }
        else
          { result := .ok freshJti,
            events := [.validatorInvoked, .otpBlacklisted, .tokenIssued, .otpSessionStored, .responded],
            cache := setOTPSession (blacklistOTP c user.userID password) freshJti user.userID }

/-- Sequential verifyOTP attempts by one caller (passwords paired with fresh
jti values), with the effect traces concatenated in order. -/
def runOTPSeq (db : Db) (c : Cache) (step : Nat) (username : String) :
    List (String × String) → List OtpEv × Cache
  | [] => ([], c)
  | (pwd, jti) :: rest =>
    let o := verifyOTP db c step (some (username, pwd)) jti
    let r := runOTPSeq db o.cache step username rest
    (o.events ++ r.1, r.2)

/-- Claim C4: once the attempt counter of a subject stands at 3, every
verifyOTP call for that subject inside the lockout window returns the 429
lockout failure, never reaches validateDefaultTOTP (even if the presented
code is correct), and leaves the counter at 3, so the lockout persists. -/
theorem verifyOTP_locked_out (db : Db) (c : Cache) (step : Nat)
    (uname pwd jti : String) (user : UserRow)
    (hu : uname ≠ "") (hp : pwd ≠ "")
    (hfind : getUserByID db uname = some user)
    (hatt : getOTPAttempts c user.userID = some 3) :
    (verifyOTP db c step (some (uname, pwd)) jti).result =
        .err "You have exceeded the number of times allowed for a secured session. Please try again in the next day." 429 ∧
      OtpEv.validatorInvoked ∉ (verifyOTP db c step (some (uname, pwd)) jti).events ∧
      getOTPAttempts (verifyOTP db c step (some (uname, pwd)) jti).cache user.userID = some 3 := by
  have hup : ¬ (uname = "" ∨ pwd = "") := by
    rintro (h | h)
    · exact hu h
    · exact hp h
  by_cases hlock : getSecurityAlertEmailLock c user.userID
  · refine ⟨?_, ?_, ?_⟩ <;> simp [verifyOTP, hup, hfind, hatt, hlock]
  · have hatt2 : getOTPAttempts (setSecurityAlertEmailLock c user.userID) user.userID = some 3 := hatt
    refine ⟨?_, ?_, ?_⟩ <;> simp [verifyOTP, hup, hfind, hatt, hlock, hatt2]

/-- Witness for C4: a subject with three recorded failures presents the
correct code for the current step and is still refused without the code
being compared. -/
theorem verifyOTP_locked_out_witness :
    (verifyOTP ⟨[aliceRow], []⟩ { Cache.empty with otpAttempts := [("alice-id", 3)] } 7
        (some ("alice-id", "secret#7")) "j1").result =
        .err "You have exceeded the number of times allowed for a secured session. Please try again in the next day." 429 ∧
      OtpEv.validatorInvoked ∉ (verifyOTP ⟨[aliceRow], []⟩
        { Cache.empty with otpAttempts := [("alice-id", 3)] } 7
        (some ("alice-id", "secret#7")) "j1").events := by
  have h := verifyOTP_locked_out ⟨[aliceRow], []⟩
    { Cache.empty with otpAttempts := [("alice-id", 3)] } 7 "alice-id" "secret#7" "j1"
    aliceRow (by decide) (by decide) (by decide) (by decide)
  exact ⟨h.1, h.2.1⟩

/-- While a (subject, code) pair is blacklisted, no verifyOTP call can issue
a step-up token for it: every branch reachable under a blacklisted pair is a
failure branch. -/
theorem verifyOTP_blacklisted_no_token (db : Db) (c : Cache) (step : Nat)
    (uname pwd jti : String) (user : UserRow)
    (hfind : getUserByID db uname = some user)
    (hbl : getBlacklistedOTP c user.userID pwd = true) :
    OtpEv.tokenIssued ∉ (verifyOTP db c step (some (uname, pwd)) jti).events := by
  by_cases hup : uname = "" ∨ pwd = ""
  · simp [verifyOTP, hup]
  by_cases hatt : getOTPAttempts c user.userID = some 3
  · by_cases hlock : getSecurityAlertEmailLock c user.userID <;>
      simp [verifyOTP, hup, hfind, hatt, hlock]
  · simp [verifyOTP, hup, hfind, hatt, hbl]

/-- Claim C5: when verifyOTP succeeds, the consumed (subject, code) pair is
in the blacklist of the post-state, the blacklisting effect precedes the
success response in the trace, a second verifyOTP presenting the same pair
in the same time-step returns the 410 replay error without issuing any
step-up token, and no later call of that time-step whose store still
blacklists the pair can issue one either. -/
theorem verifyOTP_success_blocks_replay (db : Db) (c : Cache) (step : Nat)
    (uname pwd jti jti2 : String) (user : UserRow)
    (hfind : getUserByID db uname = some user)
    (hok : (verifyOTP db c step (some (uname, pwd)) jti).result = .ok jti) :
    getBlacklistedOTP (verifyOTP db c step (some (uname, pwd)) jti).cache user.userID pwd = true ∧
    (verifyOTP db c step (some (uname, pwd)) jti).events.indexOf .otpBlacklisted <
      (verifyOTP db c step (some (uname, pwd)) jti).events.indexOf .responded ∧
    (verifyOTP db (verifyOTP db c step (some (uname, pwd)) jti).cache step
        (some (uname, pwd)) jti2).result =
      .err "This OTP has expired. Please request it again in 30 seconds!" 410 ∧
    OtpEv.tokenIssued ∉ (verifyOTP db (verifyOTP db c step (some (uname, pwd)) jti).cache step
        (some (uname, pwd)) jti2).events ∧
    (∀ (c2 : Cache) (j2 : String), getBlacklistedOTP c2 user.userID pwd = true →
      OtpEv.tokenIssued ∉ (verifyOTP db c2 step (some (uname, pwd)) j2).events) := by
  by_cases hup : uname = "" ∨ pwd = ""
  · exfalso
    simp [verifyOTP, hup] at hok
  by_cases hatt : getOTPAttempts c user.userID = some 3
  · exfalso
    by_cases hlock : getSecurityAlertEmailLock c user.userID <;>
      simp [verifyOTP, hup, hfind, hatt, hlock] at hok
  by_cases hbl : getBlacklistedOTP c user.userID pwd
  · exfalso
    simp [verifyOTP, hup, hfind, hatt, hbl] at hok
  by_cases hval : validateDefaultTOTP step pwd user.totpSecret = false
  · exfalso
    simp [verifyOTP, hup, hfind, hatt, hbl, hval] at hok
  have ho1 : verifyOTP db c step (some (uname, pwd)) jti =
      { result := .ok jti,
        events := [.validatorInvoked, .otpBlacklisted, .tokenIssued, .otpSessionStored, .responded],
        cache := setOTPSession (blacklistOTP c user.userID pwd) jti user.userID } := by
    simp [verifyOTP, hup, hfind, hatt, hbl, hval]
  rw [ho1]
  have hbl2 : getBlacklistedOTP (setOTPSession (blacklistOTP c user.userID pwd) jti user.userID)
      user.userID pwd = true := by
    simp [getBlacklistedOTP, blacklistOTP, setOTPSession]
  have hatt2 : getOTPAttempts (setOTPSession (blacklistOTP c user.userID pwd) jti user.userID)
      user.userID = getOTPAttempts c user.userID := rfl
  refine ⟨hbl2, ?_, ?_, ?_, ?_⟩
  · show List.indexOf OtpEv.otpBlacklisted
        [OtpEv.validatorInvoked, OtpEv.otpBlacklisted, OtpEv.tokenIssued,
          OtpEv.otpSessionStored, OtpEv.responded] <
      List.indexOf OtpEv.responded
        [OtpEv.validatorInvoked, OtpEv.otpBlacklisted, OtpEv.tokenIssued,
          OtpEv.otpSessionStored, OtpEv.responded]
    decide
  · simp [verifyOTP, hup, hfind, hatt2, hatt, hbl2]
  · simp [verifyOTP, hup, hfind, hatt2, hatt, hbl2]
  · intro c2 j2 hbl3
    exact verifyOTP_blacklisted_no_token db c2 step uname pwd j2 user hfind hbl3

/-- Witness for C5: the correct code for step 7 is accepted once and the
identical immediate replay is refused with the 410 replay error. -/
theorem verifyOTP_success_blocks_replay_witness :
    getBlacklistedOTP (verifyOTP ⟨[aliceRow], []⟩ Cache.empty 7
        (some ("alice-id", "secret#7")) "j1").cache "alice-id" "secret#7" = true ∧
    (verifyOTP ⟨[aliceRow], []⟩ (verifyOTP ⟨[aliceRow], []⟩ Cache.empty 7
        (some ("alice-id", "secret#7")) "j1").cache 7
        (some ("alice-id", "secret#7")) "j2").result =
      .err "This OTP has expired. Please request it again in 30 seconds!" 410 := by
  have h := verifyOTP_success_blocks_replay ⟨[aliceRow], []⟩ Cache.empty 7
    "alice-id" "secret#7" "j1" "j2" aliceRow (by decide) (by decide)
  exact ⟨h.1, h.2.2.1⟩

/-- Number of security-alert emails in an effect trace. -/
def alertCount (l : List OtpEv) : Nat :=
  l.countP (fun e => e == .alertEmailSent)

/-- Claim C7 counterexample: with the counter at 2, the failed attempt that
reaches the threshold of 3 sends no security notification at all — the email
is only sent by a later attempt made while the subject is already locked
out, so the strike reaching the threshold does not fire it. -/
theorem third_strike_sends_no_notification :
    (verifyOTP ⟨[aliceRow], []⟩ { Cache.empty with otpAttempts := [("alice-id", 2)] } 7
        (some ("alice-id", "bad")) "j1").events =
      [.validatorInvoked, .attemptIncremented, .responded] ∧
    getOTPAttempts (verifyOTP ⟨[aliceRow], []⟩
        { Cache.empty with otpAttempts := [("alice-id", 2)] } 7
        (some ("alice-id", "bad")) "j1").cache "alice-id" = some 3 := by
  exact ⟨rfl, rfl⟩

/-- One verifyOTP call never removes a security-alert lock. -/
theorem verifyOTP_lock_mono (db : Db) (c : Cache) (step : Nat)
    (uname pwd jti uid : String)
    (h : getSecurityAlertEmailLock c uid = true) :
    getSecurityAlertEmailLock (verifyOTP db c step (some (uname, pwd)) jti).cache uid = true := by
  by_cases hup : uname = "" ∨ pwd = ""
  · simpa [verifyOTP, hup] using h
  cases hfind : getUserByID db uname with
  | none => simpa [verifyOTP, hup, hfind] using h
  | some user =>
    by_cases hatt : getOTPAttempts c user.userID = some 3
    · by_cases hlock : getSecurityAlertEmailLock c user.userID
      · simpa [verifyOTP, hup, hfind, hatt, hlock] using h
      · simp only [verifyOTP, hup, hfind, hatt, hlock]
        simp only [getSecurityAlertEmailLock, setSecurityAlertEmailLock] at h ⊢
        simp at h ⊢
        exact Or.inr h
    · by_cases hbl : getBlacklistedOTP c user.userID pwd
      · simpa [verifyOTP, hup, hfind, hatt, hbl] using h
      · by_cases hval : validateDefaultTOTP step pwd user.totpSecret = false
        · simpa [verifyOTP, hup, hfind, hatt, hbl, hval] using h
        · simpa [verifyOTP, hup, hfind, hatt, hbl, hval] using h

/-- While the security-alert lock of the resolved subject is set, a
verifyOTP call sends no notification. -/
theorem verifyOTP_locked_no_alert (db : Db) (c : Cache) (step : Nat)
    (uname pwd jti : String) (user : UserRow)
    (hfind : getUserByID db uname = some user)
    (hlock : getSecurityAlertEmailLock c user.userID = true) :
    alertCount (verifyOTP db c step (some (uname, pwd)) jti).events = 0 := by
  by_cases hup : uname = "" ∨ pwd = ""
  · simp [verifyOTP, hup, alertCount]
  by_cases hatt : getOTPAttempts c user.userID = some 3
  · simp [verifyOTP, hup, hfind, hatt, hlock, alertCount]
  by_cases hbl : getBlacklistedOTP c user.userID pwd
  · simp [verifyOTP, hup, hfind, hatt, hbl, alertCount]
  by_cases hval : validateDefaultTOTP step pwd user.totpSecret = false
  · simp [verifyOTP, hup, hfind, hatt, hbl, hval, alertCount]
  · simp [verifyOTP, hup, hfind, hatt, hbl, hval, alertCount]

/-- One verifyOTP call sends at most one notification, and when it does, the
subject was resolved and leaves with the alert lock set. -/
theorem verifyOTP_alert_cases (db : Db) (c : Cache) (step : Nat)
    (uname pwd jti : String) :
    alertCount (verifyOTP db c step (some (uname, pwd)) jti).events = 0 ∨
    (alertCount (verifyOTP db c step (some (uname, pwd)) jti).events = 1 ∧
      ∃ user, getUserByID db uname = some user ∧
        getSecurityAlertEmailLock (verifyOTP db c step (some (uname, pwd)) jti).cache
          user.userID = true) := by
  by_cases hup : uname = "" ∨ pwd = ""
  · left
    simp [verifyOTP, hup, alertCount]
  cases hfind : getUserByID db uname with
  | none =>
    left
    simp [verifyOTP, hup, hfind, alertCount]
  | some user =>
    by_cases hatt : getOTPAttempts c user.userID = some 3
    · by_cases hlock : getSecurityAlertEmailLock c user.userID
      · left
        simp [verifyOTP, hup, hfind, hatt, hlock, alertCount]
      · right
        refine ⟨by simp [verifyOTP, hup, hfind, hatt, hlock, alertCount], user, rfl, ?_⟩
        have hset : getSecurityAlertEmailLock (setSecurityAlertEmailLock c user.userID)
            user.userID = true := by
          simp [getSecurityAlertEmailLock, setSecurityAlertEmailLock]
        simpa [verifyOTP, hup, hfind, hatt, hlock] using hset
    · left
      by_cases hbl : getBlacklistedOTP c user.userID pwd
      · simp [verifyOTP, hup, hfind, hatt, hbl, alertCount]
      · by_cases hval : validateDefaultTOTP step pwd user.totpSecret = false
        · simp [verifyOTP, hup, hfind, hatt, hbl, hval, alertCount]
        · simp [verifyOTP, hup, hfind, hatt, hbl, hval, alertCount]

/-- Once the resolved subject's alert lock is set, a whole sequence of
verifyOTP attempts sends no further notification. -/
theorem runOTPSeq_alert_zero (db : Db) (step : Nat) (uname : String) (user : UserRow)
    (hfind : getUserByID db uname = some user) :
    ∀ (calls : List (String × String)) (c : Cache),
      getSecurityAlertEmailLock c user.userID = true →
      alertCount (runOTPSeq db c step uname calls).1 = 0 := by
  intro calls
  induction calls with
  | nil =>
    intro c _
    simp [runOTPSeq, alertCount]
  | cons pc rest ih =>
    intro c hlock
    obtain ⟨pwd, jti⟩ := pc
    rw [runOTPSeq]
    show alertCount ((verifyOTP db c step (some (uname, pwd)) jti).events ++
      (runOTPSeq db (verifyOTP db c step (some (uname, pwd)) jti).cache step uname rest).1) = 0
    rw [alertCount, List.countP_append, ← alertCount, ← alertCount]
    rw [verifyOTP_locked_no_alert db c step uname pwd jti user hfind hlock,
      ih _ (verifyOTP_lock_mono db c step uname pwd jti user.userID hlock)]

/-- Claim C7 as amended: across any sequence of verifyOTP attempts by one
caller, the security notification is sent at most once — the call that sends
it is one made while the subject is already locked out and the alert lock is
unset, and it sets the lock, which no later call clears; in particular the
strike that reaches the threshold sends nothing, and with no attempt after
lockout no notification is sent at all. -/
theorem runOTPSeq_alert_at_most_once (db : Db) (c : Cache) (step : Nat)
    (uname : String) (calls : List (String × String)) :
    alertCount (runOTPSeq db c step uname calls).1 ≤ 1 := by
  induction calls generalizing c with
  | nil => simp [runOTPSeq, alertCount]
  | cons pc rest ih =>
    obtain ⟨pwd, jti⟩ := pc
    rw [runOTPSeq]
    show alertCount ((verifyOTP db c step (some (uname, pwd)) jti).events ++
      (runOTPSeq db (verifyOTP db c step (some (uname, pwd)) jti).cache step uname rest).1) ≤ 1
    rw [alertCount, List.countP_append, ← alertCount, ← alertCount]
    rcases verifyOTP_alert_cases db c step uname pwd jti with h0 | ⟨h1, user, hfind, hlock⟩
    · rw [h0]
      simpa using ih _
    · rw [h1, runOTPSeq_alert_zero db step uname user hfind rest _ hlock]

/-- The configured audience claim (config.JWT_AUDIENCE). -/
def jwtAudience : String := "attendance-users"

/-- The configured issuer claim (config.JWT_ISSUER). -/
def jwtIssuer : String := "attendance-api"

/-- A compact signed token: header fields, the seven-claim payload, and the
signature, modelled as the signing key paired with the signed payload (an
ideal unforgeable MAC). -/
structure SignedJwt where
  alg : String
  typ : String
  payload : AuthPayload
  sig : String × AuthPayload
  deriving Repr, DecidableEq

/-- src/core/rfc7519.ts signHS256JWT: builds the payload with
exp = now + expiration * 60, iat = nbf = now, the configured audience and
issuer, the given jti and sub, and signs it with the shared secret.  The
three Date.now() reads of one call are the same instant now. -/
def signHS256JWT (secret : String) (now : Nat) (jti sub : String)
    (expiration : Nat) : SignedJwt :=
  { alg := "HS256", typ := "JWT",
    payload := { aud := jwtAudience, exp := now + expiration * 60, iat := now,
                 iss := jwtIssuer, jti := jti, nbf := now, sub := sub },
    sig := (secret, { aud := jwtAudience, exp := now + expiration * 60, iat := now,
                      iss := jwtIssuer, jti := jti, nbf := now, sub := sub }) }

/-- Verification of a session token, embedded from the verifySessionJwt
middleware (provided with the sources, appended in
src/src/__tests_setup__/flushRedis.ts): it configures express-jwt with
algorithms HS256, config.JWT_SECRET, config.JWT_AUDIENCE and
config.JWT_ISSUER, and an onExpired handler that rethrows a 401 AppError, so
an expired token is rejected like any other failure.  The checks themselves
run in the external jsonwebtoken library called by express-jwt, whose
contract (matching RFC 7519: the current time MUST be before exp) raises
TokenExpiredError when the clock timestamp is greater than or equal to exp
and NotBeforeError when it is less than nbf, with zero default clock
tolerance; so a token is accepted exactly when the signature matches the
shared secret, audience and issuer match, now is strictly before exp, and
nbf is at most now. -/
def verifyHS256JWT (secret : String) (now : Nat) (tok : SignedJwt) :
    Option AuthPayload :=
  if tok.sig = (secret, tok.payload) ∧ tok.payload.aud = jwtAudience ∧
      tok.payload.iss = jwtIssuer ∧ now < tok.payload.exp ∧ tok.payload.nbf ≤ now
  then some tok.payload else none

/-- src/core/rfc7519.ts signEdDSAJWT: same payload construction as
signHS256JWT, signed with the private key of the asymmetric pair; the pair
is modelled by a shared key string. -/
def signEdDSAJWT (privateKey : String) (now : Nat) (jti sub : String)
    (expiration : Nat) : SignedJwt :=
  { alg := "EdDSA", typ := "JWT",
    payload := { aud := jwtAudience, exp := now + expiration * 60, iat := now,
                 iss := jwtIssuer, jti := jti, nbf := now, sub := sub },
    sig := (privateKey, { aud := jwtAudience, exp := now + expiration * 60, iat := now,
                          iss := jwtIssuer, jti := jti, nbf := now, sub := sub }) }

/-- src/core/rfc7519.ts verifyEdDSAJWT: jose jwtVerify with the public key
and the configured audience and issuer; the key pair is modelled by a shared
key string, so verification checks the signature against that same string. -/
def verifyEdDSAJWT (publicKey : String) (now : Nat) (tok : SignedJwt) :
    Option AuthPayload :=
  if tok.sig = (publicKey, tok.payload) ∧ tok.payload.aud = jwtAudience ∧
      tok.payload.iss = jwtIssuer ∧ now < tok.payload.exp ∧ tok.payload.nbf ≤ now
  then some tok.payload else none

/-- Claim C6 counterexample: at ttl = 0 the issued token has exp = now, and
an immediate verification already rejects it as expired — jsonwebtoken,
called by the verifySessionJwt middleware, raises TokenExpiredError whenever
the clock timestamp is not strictly before exp — so the round trip does not
return the claims the property promises for every ttl. -/
theorem issue_then_verify_fails_at_zero_ttl :
    verifyHS256JWT "k" 0 (signHS256JWT "k" 0 "s1" "alice-id" 0) = none := by
  decide

/-- Claim C6 as amended: for every positive ttl, issuing a session token and
immediately verifying it returns the payload, whose sub is the subject, jti
the sessionID, exp minus iat exactly ttl * 60 seconds, and nbf the issuance
time. -/
theorem issueSessionToken_roundtrip (secret sub jti : String) (now ttl : Nat)
    (h : 0 < ttl) :
    ∃ p, verifyHS256JWT secret now (signHS256JWT secret now jti sub ttl) = some p ∧
      p.sub = sub ∧ p.jti = jti ∧ p.exp - p.iat = ttl * 60 ∧ p.nbf = now := by
  have hlt : now < now + ttl * 60 := by omega
  have hver : verifyHS256JWT secret now (signHS256JWT secret now jti sub ttl) =
      some { aud := jwtAudience, exp := now + ttl * 60, iat := now, iss := jwtIssuer,
             jti := jti, nbf := now, sub := sub } := by
    simp [verifyHS256JWT, signHS256JWT, hlt]
  refine ⟨_, hver, rfl, rfl, ?_, rfl⟩
  show (now + ttl * 60) - now = ttl * 60
  omega

/-- Witness for the amended C6 at a concrete one-minute token. -/
theorem issueSessionToken_roundtrip_witness :
    ∃ p, verifyHS256JWT "k" 100 (signHS256JWT "k" 100 "s1" "alice-id" 1) = some p ∧
      p.sub = "alice-id" ∧ p.jti = "s1" ∧ p.exp - p.iat = 1 * 60 ∧ p.nbf = 100 :=
  issueSessionToken_roundtrip "k" "alice-id" "s1" 100 1 (by decide)

/-- What a limiter can do with one request: let it proceed after a delay in
milliseconds, or hard-reject it. -/
inductive LimiterAction where
  | proceedAfter (delayMs : Nat)
  | reject
  deriving Repr, DecidableEq

/-- The delayMs callback of src/modules/middleware/slow-down.ts:
(used - delayAfter) * 200 milliseconds, where delayAfter is the configured
limit. -/
def slowDownDelayMs (delayAfter used : Nat) : Nat :=
  (used - delayAfter) * 200

/-- Modelled from the spec and the express-slow-down contract (the library
is outside the repository): each request increments the windowed counter of
its caller key; while the count is at most delayAfter the request proceeds
undelayed; beyond it the request proceeds after the configured delayMs of
the overage; the middleware never rejects a request. -/
def slowDownHit (delayAfter : Nat) (hits : Nat) : LimiterAction × Nat :=
  let used := hits + 1
  (if used ≤ delayAfter then .proceedAfter 0
   else .proceedAfter (slowDownDelayMs delayAfter used), used)

/-- Actions taken for n consecutive requests of one caller key inside one
window, oldest first. -/
def slowDownRun (delayAfter : Nat) : Nat → List LimiterAction × Nat
  | 0 => ([], 0)
  | n + 1 =>
    let r := slowDownRun delayAfter n
    let h := slowDownHit delayAfter r.2
    (r.1 ++ [h.1], h.2)

/-- The counter after n requests is n. -/
theorem slowDownRun_hits (delayAfter n : Nat) :
    (slowDownRun delayAfter n).2 = n := by
  induction n with
  | zero => rfl
  | succ n ih => simp [slowDownRun, slowDownHit, ih]

/-- Claim C8: within one window, the i-th request of a caller key proceeds
with zero delay while its count i is at most the threshold, proceeds after
exactly (i - threshold) * 200 milliseconds once the count exceeds the
threshold, and no request is ever hard-rejected. -/
theorem slowDown_delays_proportionally (delayAfter n : Nat) :
    (slowDownRun delayAfter n).1 =
      (List.range n).map (fun i =>
        if i + 1 ≤ delayAfter then .proceedAfter 0
        else .proceedAfter ((i + 1 - delayAfter) * 200)) ∧
    LimiterAction.reject ∉ (slowDownRun delayAfter n).1 := by
  have hmap : (slowDownRun delayAfter n).1 =
      (List.range n).map (fun i =>
        if i + 1 ≤ delayAfter then .proceedAfter 0
        else .proceedAfter ((i + 1 - delayAfter) * 200)) := by
    induction n with
    | zero => rfl
    | succ n ih =>
      rw [slowDownRun]
      show (slowDownRun delayAfter n).1 ++
          [(slowDownHit delayAfter (slowDownRun delayAfter n).2).1] = _
      rw [List.range_succ, List.map_append, ih, slowDownRun_hits]
      rw [slowDownHit, slowDownDelayMs]
      simp
  refine ⟨hmap, ?_⟩
  rw [hmap]
  intro hmem
  rcases List.mem_map.mp hmem with ⟨i, _, hi⟩
  by_cases hle : i + 1 ≤ delayAfter
  · rw [if_pos hle] at hi
    exact LimiterAction.noConfusion hi
  · rw [if_neg hle] at hi
    exact LimiterAction.noConfusion hi

/-- Body of one sendUserStatus response: the two authentication flags and
whether the user object is attached (in place of null). -/
structure StatusResp where
  isAuthenticated : Bool
  isMFA : Bool
  withUser : Bool
  deriving Repr, DecidableEq

/-- Attempts a sequence of response sends against the single response slot
of one request: the first send fills the slot; any further send raises the
headers-already-sent error and skips the rest.  Returns the slot and whether
a send raised. -/
def attemptSends : Option StatusResp → List StatusResp → Option StatusResp × Bool
  | slot, [] => (slot, false)
  | none, r :: rs => attemptSends (some r) rs
  | some r0, _ :: _ => (some r0, true)

/-- The ordered sendUserStatus calls that the try block of
AuthController.getStatus reaches, with a flag telling whether the block
raises before any send (the req.session property access on the /status
route, where no middleware attaches req.session).  The identifier-mismatch
branch has no return statement in the source, so it lists both its own send
and the fall-through final success send. -/
def getStatusTrySends (db : Db) (c : Cache) (publicKey : String) (now : Nat)
    (reqSession : Option String) (tokenHdr : Option SignedJwt) :
    List StatusResp × Bool :=
  match reqSession with
  | none => ([], true)
  | some uid =>
    if uid = "" then ([⟨false, false, false⟩], false)
    else
      match getUserByID db uid with
      | none => ([⟨false, false, false⟩], false)
      | some user =>
        if user.isActive = false then ([⟨false, false, false⟩], false)
        else
          match tokenHdr with
          | none => ([⟨true, false, true⟩], false)
          | some tok =>
            match verifyEdDSAJWT publicKey now tok with
            | none => ([⟨true, false, true⟩], false)
            | some payload =>
              if payload.jti = "" then ([⟨true, false, true⟩], false)
              else
                match getOTPSession c payload.jti with
                | none => ([⟨true, false, true⟩], false)
                | some userID =>
                  if userID = "" then ([⟨true, false, true⟩], false)
                  else if uid ≠ userID ∨ payload.sub ≠ userID then
                    ([⟨true, false, true⟩, ⟨true, true, true⟩], false)
                  else ([⟨true, true, true⟩], false)

/-- Final observable outcome of getStatus: the response the client receives
(the first successful send) and whether an error escapes the handler. -/
structure StatusOut where
  response : Option StatusResp
  escaped : Bool
  deriving Repr, DecidableEq

/-- AuthController.getStatus: runs the try block against the response slot;
a raise is caught by the catch block, whose single unauthenticated send
itself raises when a response was already sent, and that second raise
escapes the handler (the /status route mounts getStatus without
asyncHandler). -/
def getStatus (db : Db) (c : Cache) (publicKey : String) (now : Nat)
    (reqSession : Option String) (tokenHdr : Option SignedJwt) : StatusOut :=
  let t := getStatusTrySends db c publicKey now reqSession tokenHdr
  let a := attemptSends none t.1
  if t.2 || a.2 then
    match a.1 with
    | none => { response := some ⟨false, false, false⟩, escaped := false }
    | some r0 => { response := some r0, escaped := true }
  else
    { response := a.1, escaped := false }

/-- Claim C9: the response delivered to the client reports isMFA = true
exactly when the step-up token is present and verifies, carries a nonempty
jti cached to a nonempty userID, and that userID equals both the session
subject and the token sub; in every other case, including any identifier
mismatch, the delivered response reports isMFA = false. -/
theorem getStatus_isMFA_iff (db : Db) (c : Cache) (publicKey : String) (now : Nat)
    (reqSession : Option String) (tokenHdr : Option SignedJwt) :
    ((getStatus db c publicKey now reqSession tokenHdr).response.map StatusResp.isMFA).getD false = true ↔
    (∃ uid user tok payload userID,
      reqSession = some uid ∧ uid ≠ "" ∧
      getUserByID db uid = some user ∧ user.isActive = true ∧
      tokenHdr = some tok ∧ verifyEdDSAJWT publicKey now tok = some payload ∧
      payload.jti ≠ "" ∧ getOTPSession c payload.jti = some userID ∧ userID ≠ "" ∧
      uid = userID ∧ payload.sub = userID) := by
  constructor
  · intro h
    cases hs : reqSession with
    | none => rw [hs] at h; simp [getStatus, getStatusTrySends, attemptSends] at h
    | some uid =>
      rw [hs] at h
      by_cases huid : uid = ""
      · simp [getStatus, getStatusTrySends, attemptSends, huid] at h
      cases hfind : getUserByID db uid with
      | none => simp [getStatus, getStatusTrySends, attemptSends, huid, hfind] at h
      | some user =>
        by_cases hact : user.isActive = false
        · simp [getStatus, getStatusTrySends, attemptSends, huid, hfind, hact] at h
        cases htok : tokenHdr with
        | none => simp [getStatus, getStatusTrySends, attemptSends, huid, hfind, hact, htok] at h
        | some tok =>
          cases hver : verifyEdDSAJWT publicKey now tok with
          | none =>
            simp [getStatus, getStatusTrySends, attemptSends, huid, hfind, hact, htok, hver] at h
          | some payload =>
            by_cases hjti : payload.jti = ""
            · simp [getStatus, getStatusTrySends, attemptSends, huid, hfind, hact, htok,
                hver, hjti] at h
            cases hotp : getOTPSession c payload.jti with
            | none =>
              simp [getStatus, getStatusTrySends, attemptSends, huid, hfind, hact, htok,
                hver, hjti, hotp] at h
            | some userID =>
              by_cases hzero : userID = ""
              · simp [getStatus, getStatusTrySends, attemptSends, huid, hfind, hact, htok,
                  hver, hjti, hotp, hzero] at h
              by_cases hmm : uid ≠ userID ∨ payload.sub ≠ userID
              · simp [getStatus, getStatusTrySends, attemptSends, huid, hfind, hact, htok,
                  hver, hjti, hotp, hzero, hmm] at h
              · push_neg at hmm
                exact ⟨uid, user, tok, payload, userID, rfl, huid, hfind,
                  (Bool.not_eq_false user.isActive).mp hact, rfl, hver, hjti, hotp, hzero,
                  hmm.1, hmm.2⟩
  · rintro ⟨uid, user, tok, payload, userID, rfl, huid, hfind, hact, rfl, hver, hjti, hotp,
      hzero, heq, hsub⟩
    subst heq
    have hmm : ¬ (uid ≠ uid ∨ payload.sub ≠ uid) := by
      push_neg
      exact ⟨rfl, hsub⟩
    have hact2 : ¬ user.isActive = false := by simp [hact]
    simp [getStatus, getStatusTrySends, attemptSends, huid, hfind, hact2, hver, hjti,
      hotp, hzero, hmm, hsub]

/-- The step-up token of another subject, signed for the mismatch scenario:
jti j1, subject bob-id, 15-minute ttl, issued at time 0. -/
def mismatchTok : SignedJwt := signEdDSAJWT "pub" 0 "j1" "bob-id" 15

/-- Claim C10 (code evaluated at the failing input): when the cached step-up
userID differs from the session subject, getStatus sends the isMFA = false
response but then, lacking a return, attempts the success send, whose
headers-already-sent raise reaches the catch block, whose own send raises
again — and that raise escapes the handler, so getStatus does not always
convert failures into a response. -/
theorem getStatus_mismatch_escapes :
    getStatus ⟨[aliceRow], []⟩ { Cache.empty with otpSessions := [("j1", "bob-id")] }
        "pub" 0 (some "alice-id") (some mismatchTok) =
      { response := some ⟨true, false, true⟩, escaped := true } := by
  rfl

end JwtAuthService
